import Mathlib

/-!
Shallow embedding of two MultiQC report-parsing modules:

* `src/multiqc/modules/adapterRemoval/adapterRemoval.py`
* `src/multiqc/modules/pycoqc/pycoqc.py`

Text lines are modelled as `List Char` (a Python `str` without its trailing
newline; the modules call `rstrip('\n')` on every line before use, so lines
never carry a terminator).  A log file is a `List Line`.  Python exceptions
are modelled explicitly: `UserWarning` (the only exception the framework
catches) is distinguished from ordinary errors (`IndexError`, `ValueError`,
`KeyError`, `TypeError`, `ZeroDivisionError`), which propagate and crash the
run.
-/

namespace MultiQC

abbrev Line := List Char

/-- Python exception classes that the two modules can raise (other than
`UserWarning`, which is modelled separately because `__init__` catches it). -/
inductive PyErr : Type where
  | indexError : PyErr
  | valueError : PyErr
  | keyError : PyErr
  | typeError : PyErr
  | zeroDivisionError : PyErr
deriving DecidableEq, Repr

/-- Outcome of running a piece of module code: a value, an uncaught
`UserWarning`, or an ordinary Python exception. -/
inductive POut (α : Type) : Type where
  | ok : α → POut α
  | uw : POut α
  | err : PyErr → POut α
deriving DecidableEq, Repr

/-- Lift an `Except` computation (code that never raises `UserWarning`). -/
def POut.ofExcept {α : Type} : Except PyErr α → POut α
  | Except.ok a => POut.ok a
  | Except.error e => POut.err e

/-! ### Python `dict` model

Insertion-ordered association list; assigning to an existing key replaces
its value in place, assigning to a fresh key appends. -/

def dlookup {κ α : Type} [DecidableEq κ] : List (κ × α) → κ → Option α
  | [], _ => none
  | p :: rest, k => if p.1 = k then some p.2 else dlookup rest k

def dinsert {κ α : Type} [DecidableEq κ] : List (κ × α) → κ → α → List (κ × α)
  | [], k, v => [(k, v)]
  | p :: rest, k, v => if p.1 = k then (k, v) :: rest else p :: dinsert rest k v

def dkeys {κ α : Type} (d : List (κ × α)) : List κ := d.map (fun p => p.1)

/-! ### Python string primitives (total, kernel-computable) -/

/-- Python `str.split(sep)` for a one-character separator. -/
def splitOnChar (sep : Char) : Line → List Line
  | [] => [[]]
  | c :: rest =>
    if c == sep then [] :: splitOnChar sep rest
    else
      match splitOnChar sep rest with
      | [] => [[c]]
      | g :: gs => (c :: g) :: gs

/-- Python `str.split(': ')`: split on the two-character separator `": "`,
scanning left to right without overlap. -/
def splitColonSpace : Line → List Line
  | [] => [[]]
  | [c] => [[c]]
  | ':' :: ' ' :: rest => [] :: splitColonSpace rest
  | c :: rest =>
    match splitColonSpace rest with
    | [] => [[c]]
    | g :: gs => (c :: g) :: gs

/-- Python `str.strip('[]')`: drop leading and trailing characters drawn from
the set `{'[', ']'}`. -/
def stripBrackets (s : Line) : Line :=
  ((s.dropWhile (fun c => c == '[' || c == ']')).reverse.dropWhile
    (fun c => c == '[' || c == ']')).reverse

/-- Decimal digit run to a natural number; `none` on a non-digit. -/
def digitsToNat : Line → Nat → Option Nat
  | [], acc => some acc
  | c :: rest, acc =>
    if c.isDigit then digitsToNat rest (acc * 10 + (c.toNat - '0'.toNat))
    else none

/-- Python `int(s)` on the strings these log files contain: an optional
leading minus sign followed by a non-empty digit run (surrounding
whitespace, `+` signs and underscores do not occur in these files). -/
def toIntPy : Line → Option Int
  | [] => none
  | '-' :: rest =>
    if rest = [] then none else (digitsToNat rest 0).map (fun n => -(n : Int))
  | s =>
    (digitsToNat s 0).map (fun n => (n : Int))

/-! ### Python `round(x, 2)`

CPython `round` on a float uses round-half-to-even.  The module's only
rounding site is `round(aligned * 100.0 / total, 2)`; we carry the result
as an exact integer count of hundredths of a percent, i.e.
`round_half_even(aligned * 10000 / total)`, which is the value the float
computation represents up to double-precision representation error. -/

/-- Round `a / b` (with `b > 0`) to the nearest integer, ties to even. -/
def roundHalfEvenPos (a b : Int) : Int :=
  let q := Int.fdiv a b
  let r := a - q * b
  if 2 * r < b then q
  else if b < 2 * r then q + 1
  else if q % 2 = 0 then q else q + 1

/-- Round `a / b` (with `b ≠ 0`) to the nearest integer, ties to even. -/
def pyRoundDiv (a b : Int) : Int :=
  if 0 < b then roundHalfEvenPos a b else roundHalfEvenPos (-a) (-b)

/-! ## AdapterRemoval module (`adapterRemoval.py`) -/

/-- The per-sample record built by `set_trim_stat` (the module's
`self.result_data` dict once `set_trim_stat` has run: every key is
written unconditionally, so the record is fully determined).
`percent_aligned_x100` holds `percent_aligned` scaled by 100 (exact
hundredths of a percent). -/
structure ResultData : Type where
  total : Int
  unaligned : Int
  aligned : Int
  discarded_m1 : Int
  singleton_m1 : Int
  retained : Int
  discarded_m2 : Int
  singleton_m2 : Int
  full_length_cp : Int
  truncated_cp : Int
  aligned_total : Int
  unaligned_total : Int
  reads_total : Int
  discarded_total : Int
  retained_reads : Int
  percent_aligned_x100 : Int
deriving DecidableEq, Repr

/-- One parsed row of the `[Length distribution]` table, as `set_len_dist`
records it: a length value plus one count per read category (the key
`'discarged'` reproduces the module's spelling). -/
structure LenRow : Type where
  len : Int
  mate1 : Int
  mate2 : Int
  singleton : Int
  collapsed : Int
  collapsed_truncated : Int
  discarged : Int
  all : Int
deriving DecidableEq, Repr

abbrev Blocks := List (Line × List Line)

/-- Model of `settings_data[block_title].append(line)`: append to an existing key. -/
def bappend (d : Blocks) (k : Line) (line : Line) : Blocks :=
  d.map (fun p => if p.1 = k then (p.1, p.2 ++ [line]) else p)

/-- The section-splitting loop of `parse_settings_file`: the first non-empty
line goes to the `header` block (even if it starts with `[`); a line
starting with `[` opens a fresh block named by `strip('[]')` (resetting any
earlier block of the same name, as Python dict assignment does); any other
non-empty line is appended to the current block.  `bt = []` models the
falsy `block_title` (both `None` initially and a title stripped to `''`). -/
def buildBlocksGo : List Line → Line → Blocks → Blocks
  | [], _, d => d
  | line :: rest, bt, d =>
    if line = [] then buildBlocksGo rest bt d
    else if bt = [] then
      buildBlocksGo rest ("header".toList) (bappend d ("header".toList) line)
    else if line.head? = some '[' then
      let nt := stripBrackets line
      buildBlocksGo rest nt (dinsert d nt [])
    else buildBlocksGo rest bt (bappend d bt line)

def buildBlocks (lines : List Line) : Blocks :=
  buildBlocksGo lines [] [("header".toList, [])]

/-- Total column accessor (only used behind an explicit bounds check). -/
def getDL (l : List Line) (i : Nat) : Line := (l.get? i).getD []

/-- Model of `set_ar_type`: classify the run from the first `Length distribution`
line.  `head_line[2]` and `head_line[-3]` both demand at least three
tab-separated columns (`IndexError` otherwise); the single-end collapsed
combination raises `UserWarning`. -/
def set_ar_type (len_dist_data : List Line) : POut (Bool × Bool) :=
  match len_dist_data.get? 0 with
  | none => POut.err PyErr.indexError
  | some hl0 =>
    let head_line := splitOnChar '\t' hl0
    if 3 ≤ head_line.length then
      let paired := getDL head_line 2 == "Mate2".toList
      let collapsed := getDL head_line (head_line.length - 3) == "CollapsedTruncated".toList
      if !paired && collapsed then POut.uw
      else POut.ok (paired, collapsed)
    else POut.err PyErr.indexError

/-- Model of `trim_data[i].split(': ')[1]` followed by `int(...)`:
the three failure points are `IndexError` (row missing), `IndexError`
(no `': '` in the row) and `ValueError` (non-integer text). -/
def getF (trim_data : List Line) (i : Nat) : Except PyErr Int :=
  match trim_data.get? i with
  | none => Except.error PyErr.indexError
  | some tmp =>
    match (splitColonSpace tmp).get? 1 with
    | none => Except.error PyErr.indexError
    | some v =>
      match toIntPy v with
      | none => Except.error PyErr.valueError
      | some n => Except.ok n

/-- Row index of `retained` in `data_pattern`, by run mode. -/
def retainedIdx (paired collapsed : Bool) : Nat :=
  if paired then (if collapsed then 10 else 8) else 6

/-- Parse the ten `required` fields of `set_trim_stat` in the loop's order
(`total, unaligned, aligned, discarded_m1, singleton_m1, retained,
discarded_m2, singleton_m2, full-length_cp, truncated_cp`); a field absent
from `data_pattern` for the current mode is set to `0` without touching the
file. -/
def readFields (td : List Line) (paired collapsed : Bool) :
    Except PyErr (Int × Int × Int × Int × Int × Int × Int × Int × Int × Int) := do
  let total ← getF td 0
  let unaligned ← getF td 1
  let aligned ← getF td 2
  let dm1 ← getF td 3
  let sm1 ← getF td 4
  let ret ← getF td (retainedIdx paired collapsed)
  let dm2 ← if paired then getF td 5 else pure 0
  let sm2 ← if paired then getF td 6 else pure 0
  let flcp ← if paired && collapsed then getF td 8 else pure 0
  let tcp ← if paired && collapsed then getF td 9 else pure 0
  pure (total, unaligned, aligned, dm1, sm1, ret, dm2, sm2, flcp, tcp)

/-- The derived-statistics tail of `set_trim_stat` (pure arithmetic). -/
def mkResult (paired : Bool)
    (total unaligned aligned dm1 sm1 ret dm2 sm2 flcp tcp : Int) : ResultData :=
  let reads_total := if paired then total * 2 else total
  let aligned_total := if paired then aligned * 2 else aligned
  let unaligned_total := if paired then unaligned * 2 else unaligned
  { total := total
    unaligned := unaligned
    aligned := aligned
    discarded_m1 := dm1
    singleton_m1 := sm1
    retained := ret
    discarded_m2 := dm2
    singleton_m2 := sm2
    full_length_cp := flcp
    truncated_cp := tcp
    aligned_total := aligned_total
    unaligned_total := unaligned_total
    reads_total := reads_total
    discarded_total := reads_total - ret
    retained_reads := ret - sm1 - sm2
    percent_aligned_x100 := pyRoundDiv (aligned * 10000) total }

/-- Model of `set_trim_stat`: parse the required fields, then compute the derived
statistics; the final `percent_aligned` line divides by `total` with no
guard, so `total = 0` raises `ZeroDivisionError`. -/
def set_trim_stat (td : List Line) (paired collapsed : Bool) :
    Except PyErr ResultData :=
  match readFields td paired collapsed with
  | Except.error e => Except.error e
  | Except.ok (total, unaligned, aligned, dm1, sm1, ret, dm2, sm2, flcp, tcp) =>
    if total = 0 then Except.error PyErr.zeroDivisionError
    else Except.ok (mkResult paired total unaligned aligned dm1 sm1 ret dm2 sm2 flcp tcp)

/-- Python `cols[i]` with `IndexError` on overflow. -/
def col (cols : List Int) (i : Nat) : Except PyErr Int :=
  match cols.get? i with
  | some v => Except.ok v
  | none => Except.error PyErr.indexError

/-- One iteration of the `set_len_dist` loop after `l_data` has been split
and converted to integers: which columns feed which categories depends on
the run mode, and categories a mode does not produce are recorded as `0`.
The single-end collapsed combination stores nothing (`pass` branch,
unreachable because `set_ar_type` raised first); this is `none`. -/
def rowOfCols (paired collapsed : Bool) (cols : List Int) :
    Except PyErr (Option LenRow) :=
  match paired, collapsed with
  | true, true => do
    let c0 ← col cols 0
    let c1 ← col cols 1
    let c2 ← col cols 2
    let c3 ← col cols 3
    let c4 ← col cols 4
    let c5 ← col cols 5
    let c6 ← col cols 6
    let c7 ← col cols 7
    pure (some ⟨c0, c1, c2, c3, c4, c5, c6, c7⟩)
  | true, false => do
    let c0 ← col cols 0
    let c1 ← col cols 1
    let c2 ← col cols 2
    let c3 ← col cols 3
    let c4 ← col cols 4
    let c5 ← col cols 5
    pure (some ⟨c0, c1, c2, c3, 0, 0, c4, c5⟩)
  | false, true => pure none
  | false, false => do
    let c0 ← col cols 0
    let c1 ← col cols 1
    let c2 ← col cols 2
    let c3 ← col cols 3
    pure (some ⟨c0, c1, 0, 0, 0, 0, c2, c3⟩)

/-- The `set_len_dist` loop body over the data rows: each row is split on
tabs and every column converted by `int` (`ValueError` on failure) before
the mode-dependent column selection. -/
def lenRows (paired collapsed : Bool) : List Line → Except PyErr (List LenRow)
  | [] => Except.ok []
  | line :: rest =>
    match (splitOnChar '\t' line).mapM toIntPy with
    | none => Except.error PyErr.valueError
    | some cols =>
      match rowOfCols paired collapsed cols with
      | Except.error e => Except.error e
      | Except.ok r =>
        match lenRows paired collapsed rest with
        | Except.error e => Except.error e
        | Except.ok rs =>
          Except.ok (match r with
            | some row => row :: rs
            | none => rs)

/-- Model of `set_len_dist`: process `len_dist_data[1:]` (all rows after the
header line). -/
def set_len_dist (len_dist_data : List Line) (paired collapsed : Bool) :
    Except PyErr (List LenRow) :=
  lenRows paired collapsed (len_dist_data.drop 1)

/-- Model of `parse_settings_file` / `set_result_data` for one file: build the
section dict, look up `Length distribution` (`KeyError` if absent),
classify with `set_ar_type`, look up `Trimming statistics`, then run
`set_trim_stat` and `set_len_dist`.  The result is the per-sample
`result_data` record together with this file's length-distribution rows. -/
def parse_settings_file (lines : List Line) : POut (ResultData × List LenRow) :=
  let sd := buildBlocks lines
  match dlookup sd ("Length distribution".toList) with
  | none => POut.err PyErr.keyError
  | some ld =>
    match set_ar_type ld with
    | POut.err e => POut.err e
    | POut.uw => POut.uw
    | POut.ok (paired, collapsed) =>
      match dlookup sd ("Trimming statistics".toList) with
      | none => POut.err PyErr.keyError
      | some td =>
        match set_trim_stat td paired collapsed with
        | Except.error e => POut.err e
        | Except.ok r =>
          match set_len_dist ld paired collapsed with
          | Except.error e => POut.err e
          | Except.ok rows => POut.ok (r, rows)

/-- Per-sample inner dicts of `self.len_dist_plot_data`: the seven
category dicts are initialised together and written in lockstep for a
sample, so the per-sample slice across the seven categories is one
record of seven `length ↦ count` dicts. -/
structure LenInner : Type where
  mate1 : List (Int × Int)
  mate2 : List (Int × Int)
  singleton : List (Int × Int)
  collapsed : List (Int × Int)
  collapsed_truncated : List (Int × Int)
  discarged : List (Int × Int)
  all : List (Int × Int)
deriving DecidableEq, Repr

def emptyInner : LenInner := ⟨[], [], [], [], [], [], []⟩

/-- Store one parsed row into a sample's seven inner dicts. -/
def applyRow (inner : LenInner) (r : LenRow) : LenInner :=
  { mate1 := dinsert inner.mate1 r.len r.mate1
    mate2 := dinsert inner.mate2 r.len r.mate2
    singleton := dinsert inner.singleton r.len r.singleton
    collapsed := dinsert inner.collapsed r.len r.collapsed
    collapsed_truncated := dinsert inner.collapsed_truncated r.len r.collapsed_truncated
    discarged := dinsert inner.discarged r.len r.discarged
    all := dinsert inner.all r.len r.all }

def applyRows (inner : LenInner) (rows : List LenRow) : LenInner :=
  rows.foldl applyRow inner

/-- Module state accumulated across files by `__init__`:
`self.adapter_removal_data` plus `self.len_dist_plot_data` (keyed here
by sample name first; see `LenInner`). -/
structure ARState : Type where
  data : List (Line × ResultData)
  lenDist : List (Line × LenInner)
deriving DecidableEq, Repr

def initAR : ARState := ⟨[], []⟩

/-- One iteration of the `__init__` file loop: `UserWarning` from the
parse is caught and the file skipped; other exceptions propagate; on
success the sample's `result_data` is stored (dict assignment) and its
length-distribution rows are folded into the sample's inner dicts,
which are created fresh the first time the sample name appears and
merged into on a repeat (the module never clears them). -/
def stepAR (st : ARState) (f : Line × List Line) : POut ARState :=
  match parse_settings_file f.2 with
  | POut.uw => POut.ok st
  | POut.err e => POut.err e
  | POut.ok (r, rows) =>
    POut.ok
      { data := dinsert st.data f.1 r
        lenDist :=
          if rows.isEmpty then st.lenDist
          else dinsert st.lenDist f.1
            (applyRows ((dlookup st.lenDist f.1).getD emptyInner) rows) }

/-- The `__init__` file loop over all discovered files. -/
def loopAR : List (Line × List Line) → ARState → POut ARState
  | [], st => POut.ok st
  | f :: rest, st =>
    match stepAR st f with
    | POut.ok st2 => loopAR rest st2
    | POut.uw => POut.uw
    | POut.err e => POut.err e

/-- Model of `__init__` end to end: run the file loop, then raise `UserWarning`
when `len(self.adapter_removal_data) == 0`. -/
def runAR (files : List (Line × List Line)) : POut ARState :=
  match loopAR files initAR with
  | POut.ok st => if st.data = [] then POut.uw else POut.ok st
  | POut.uw => POut.uw
  | POut.err e => POut.err e

/-- The loop state after processing `files`, when the loop completes. -/
def arStateAfter (files : List (Line × List Line)) : ARState :=
  match loopAR files initAR with
  | POut.ok st => st
  | _ => initAR

/-! ## pycoQC module (`pycoqc.py`) -/

/-- A deserialised YAML document (the value `yaml.load` returns).
Mappings carry string keys, which is what pycoQC summaries use.  Numeric
scalars are modelled as integers: the only fields the module computes with
(`reads_number`, `bases_number`) are YAML integers, and every other field
is projected into the output without arithmetic. -/
inductive Yaml : Type where
  | num : Int → Yaml
  | str : Line → Yaml
  | bool : Bool → Yaml
  | null : Yaml
  | list : List Yaml → Yaml
  | dict : List (Line × Yaml) → Yaml

/-- Python `obj[key]` for a string key: `KeyError` on a mapping without
the key, `TypeError` on a non-mapping. -/
def Yaml.getKey : Yaml → Line → Except PyErr Yaml
  | Yaml.dict kvs, k =>
    match dlookup kvs k with
    | some v => Except.ok v
    | none => Except.error PyErr.keyError
  | _, _ => Except.error PyErr.typeError

/-- Python `obj[i]` for an integer index: list indexing (`IndexError` on
overflow), `KeyError` on a string-keyed mapping, `TypeError` otherwise. -/
def Yaml.getIdx : Yaml → Nat → Except PyErr Yaml
  | Yaml.list xs, i =>
    match xs.get? i with
    | some v => Except.ok v
    | none => Except.error PyErr.indexError
  | Yaml.dict _, _ => Except.error PyErr.keyError
  | _, _ => Except.error PyErr.typeError

/-- A Python arithmetic operand: `TypeError` when `-` is applied to a
non-number. -/
def Yaml.asNum : Yaml → Except PyErr Int
  | Yaml.num n => Except.ok n
  | _ => Except.error PyErr.typeError

/-- Lookup of `sample_data[branch]['basecall'][field]`. -/
def pathBasecall (y : Yaml) (branch field : Line) : Except PyErr Yaml :=
  (y.getKey branch).bind (fun b => (b.getKey ("basecall".toList)).bind
    (fun bc => bc.getKey field))

/-- Lookup of `sample_data[branch]['run'][field]`. -/
def pathRun (y : Yaml) (branch field : Line) : Except PyErr Yaml :=
  (y.getKey branch).bind (fun b => (b.getKey ("run".toList)).bind
    (fun r => r.getKey field))

/-- The flat per-sample record `setup_data` builds into `data_for_table`. -/
structure PycoRow : Type where
  all_median_read_length : Yaml
  all_median_phred_score : Yaml
  all_n50 : Yaml
  all_run_duration : Yaml
  all_channels : Yaml
  all_reads : Yaml
  all_bases : Yaml
  passed_median_read_length : Yaml
  passed_median_phred_score : Yaml
  passed_n50 : Yaml
  passed_channels : Yaml
  passed_reads : Yaml
  passed_bases : Yaml

/-- The per-sample entry of `reads_data` (and, with bases, of
`bases_data`): the passed count and the all-minus-passed difference.
On success both operands of Python's `-` are numbers, so the stored
values are carried as integers. -/
structure SplitCounts : Type where
  passed : Int
  non_passed : Int
deriving DecidableEq, Repr

/-- Model of `dict(zip(xs, ys))` over the two histogram coordinate lists; the
coordinate values stay opaque.  Python accepts any iterables here, but
pycoQC histograms are YAML sequences, which is what is modelled
(`TypeError` otherwise). -/
def zipHist (x y : Yaml) : Except PyErr (List (Yaml × Yaml)) :=
  match x, y with
  | Yaml.list xs, Yaml.list ys => Except.ok (xs.zip ys)
  | _, _ => Except.error PyErr.typeError

/-- Everything `setup_data` derives from one sample's document: the table
row, the reads and bases bar-chart splits, and the four histogram dicts
(length all/pass, quality all/pass). -/
structure SetupOut : Type where
  row : PycoRow
  reads : SplitCounts
  bases : SplitCounts
  lenHistAll : List (Yaml × Yaml)
  lenHistPass : List (Yaml × Yaml)
  qualHistAll : List (Yaml × Yaml)
  qualHistPass : List (Yaml × Yaml)

/-- The body of the `setup_data` loop for one sample: the fixed nested
lookups of the table row in source order, then the reads/bases splits
(each `All Reads` count minus the corresponding `Pass Reads` count), then
the histogram extractions. -/
def setupSample (y : Yaml) : Except PyErr SetupOut := do
  let allK := "All Reads".toList
  let passK := "Pass Reads".toList
  let amrl ← (pathBasecall y allK ("len_percentiles".toList)).bind (fun v => v.getIdx 50)
  let amps ← (pathBasecall y allK ("qual_score_percentiles".toList)).bind (fun v => v.getIdx 50)
  let an50 ← pathBasecall y allK ("N50".toList)
  let ard ← pathRun y allK ("run_duration".toList)
  let ach ← pathRun y allK ("active_channels".toList)
  let areads ← pathBasecall y allK ("reads_number".toList)
  let abases ← pathBasecall y allK ("bases_number".toList)
  let pmrl ← (pathBasecall y passK ("len_percentiles".toList)).bind (fun v => v.getIdx 50)
  let pmps ← (pathBasecall y passK ("qual_score_percentiles".toList)).bind (fun v => v.getIdx 50)
  let pn50 ← pathBasecall y passK ("N50".toList)
  let pch ← pathRun y passK ("active_channels".toList)
  let preads ← pathBasecall y passK ("reads_number".toList)
  let pbases ← pathBasecall y passK ("bases_number".toList)
  let preadsN ← preads.asNum
  let areadsN ← areads.asNum
  let pbasesN ← pbases.asNum
  let abasesN ← abases.asNum
  let lxa ← pathBasecall y allK ("len_hist".toList) >>= (fun v => v.getKey ("x".toList))
  let lya ← pathBasecall y allK ("len_hist".toList) >>= (fun v => v.getKey ("y".toList))
  let lha ← zipHist lxa lya
  let lxp ← pathBasecall y passK ("len_hist".toList) >>= (fun v => v.getKey ("x".toList))
  let lyp ← pathBasecall y passK ("len_hist".toList) >>= (fun v => v.getKey ("y".toList))
  let lhp ← zipHist lxp lyp
  let qxa ← pathBasecall y allK ("qual_score_hist".toList) >>= (fun v => v.getKey ("x".toList))
  let qya ← pathBasecall y allK ("qual_score_hist".toList) >>= (fun v => v.getKey ("y".toList))
  let qha ← zipHist qxa qya
  let qxp ← pathBasecall y passK ("qual_score_hist".toList) >>= (fun v => v.getKey ("x".toList))
  let qyp ← pathBasecall y passK ("qual_score_hist".toList) >>= (fun v => v.getKey ("y".toList))
  let qhp ← zipHist qxp qyp
  pure
    { row :=
        { all_median_read_length := amrl
          all_median_phred_score := amps
          all_n50 := an50
          all_run_duration := ard
          all_channels := ach
          all_reads := areads
          all_bases := abases
          passed_median_read_length := pmrl
          passed_median_phred_score := pmps
          passed_n50 := pn50
          passed_channels := pch
          passed_reads := preads
          passed_bases := pbases }
      reads := { passed := preadsN, non_passed := areadsN - preadsN }
      bases := { passed := pbasesN, non_passed := abasesN - pbasesN }
      lenHistAll := lha
      lenHistPass := lhp
      qualHistAll := qha
      qualHistPass := qhp }

/-- Model of `parse_logs`: `yaml.load` of the file, modelled on the already
deserialised document. -/
def parse_logs (doc : Yaml) : Yaml := doc

/-- The `__init__` discovery loop: every file's parsed document is
assigned into `self.pycoqc_data` under its sample name; a duplicate name
is only logged, so the assignment overwrites the earlier entry. -/
def runPycoLoop (files : List (Line × Yaml)) : List (Line × Yaml) :=
  files.foldl (fun d f => dinsert d f.1 (parse_logs f.2)) []

/-- Model of `setup_data` over all samples in `self.pycoqc_data`. -/
def setupAll : List (Line × Yaml) → Except PyErr (List (Line × SetupOut))
  | [] => Except.ok []
  | (s, y) :: rest =>
    match setupSample y with
    | Except.error e => Except.error e
    | Except.ok o =>
      match setupAll rest with
      | Except.error e => Except.error e
      | Except.ok os => Except.ok ((s, o) :: os)

/-- pycoQC `__init__` through `setup_data`: collect the files, raise
`UserWarning` when `len(self.pycoqc_data) == 0`, then derive the
per-sample outputs. -/
def runPyco (files : List (Line × Yaml)) : POut (List (Line × SetupOut)) :=
  let d := runPycoLoop files
  if d.isEmpty then POut.uw
  else POut.ofExcept (setupAll d)

/-! ## Concrete inputs used to instantiate the theorems -/

/-- A single-end AdapterRemoval settings file. -/
def demoSingleLines : List Line :=
  [ "AdapterRemoval ver. 2.1.7".toList,
    [],
    "[Trimming statistics]".toList,
    "Total number of reads: 1000".toList,
    "Number of unaligned reads: 200".toList,
    "Number of well aligned reads: 800".toList,
    "Number of discarded mate 1 reads: 50".toList,
    "Number of singleton mate 1 reads: 0".toList,
    "Number of reads with adapters: 600".toList,
    "Number of retained reads: 950".toList,
    [],
    "[Length distribution]".toList,
    "Length\tMate1\tDiscarded\tAll".toList,
    "0\t0\t0\t0".toList,
    "1\t5\t2\t7".toList ]

/-- The `Length distribution` block of `demoSingleLines`. -/
def demoSingleLD : List Line :=
  [ "Length\tMate1\tDiscarded\tAll".toList,
    "0\t0\t0\t0".toList,
    "1\t5\t2\t7".toList ]

/-- The record `parse_settings_file` produces for `demoSingleLines`. -/
def demoSingleR : ResultData :=
  ⟨1000, 200, 800, 50, 0, 950, 0, 0, 0, 0, 800, 200, 1000, 50, 950, 8000⟩

/-- The length-distribution rows of `demoSingleLines`. -/
def demoSingleRows : List LenRow :=
  [⟨0, 0, 0, 0, 0, 0, 0, 0⟩, ⟨1, 5, 0, 0, 0, 0, 2, 7⟩]

/-- A settings file whose `Length distribution` header classifies the run
as single-end and collapsed (column 2 is not `Mate2`, the third column
from the end is `CollapsedTruncated`). -/
def demoSCLines : List Line :=
  [ "AdapterRemoval ver. 2.1.7".toList,
    "[Length distribution]".toList,
    "Length\tMate1\tCollapsedTruncated\tDiscarded\tAll".toList,
    "0\t0\t0\t0\t0".toList ]

/-- The `Length distribution` block of `demoSCLines`. -/
def demoSCLD : List Line :=
  [ "Length\tMate1\tCollapsedTruncated\tDiscarded\tAll".toList,
    "0\t0\t0\t0\t0".toList ]

/-- The tab-split header columns of `demoSCLD`. -/
def demoSCCols : List Line :=
  [ "Length".toList, "Mate1".toList, "CollapsedTruncated".toList,
    "Discarded".toList, "All".toList ]

/-- The `Trimming statistics` block of `demoSingleLines`. -/
def demoTrimTd : List Line :=
  [ "Total number of reads: 1000".toList,
    "Number of unaligned reads: 200".toList,
    "Number of well aligned reads: 800".toList,
    "Number of discarded mate 1 reads: 50".toList,
    "Number of singleton mate 1 reads: 0".toList,
    "Number of reads with adapters: 600".toList,
    "Number of retained reads: 950".toList ]

/-- A `Trimming statistics` block whose `total` field is `0`. -/
def demoZeroTd : List Line :=
  [ "Total number of reads: 0".toList,
    "Number of unaligned reads: 1".toList,
    "Number of well aligned reads: 2".toList,
    "Number of discarded mate 1 reads: 3".toList,
    "Number of singleton mate 1 reads: 4".toList,
    "Number of reads with adapters: 5".toList,
    "Number of retained reads: 6".toList ]

/-- Total column accessor for parsed integer rows (only used in
specifications, under hypotheses that the index is in bounds). -/
def colD (cols : List Int) (i : Nat) : Int := (cols.get? i).getD 0

/-- The parsed document of the last discovered file carrying sample name
`s` (specification-side description of "last write wins"). -/
def lastMatch (files : List (Line × Yaml)) (s : Line) : Option Yaml :=
  files.foldl (fun acc f => if f.1 = s then some (parse_logs f.2) else acc) none

/-- One branch (`All Reads` / `Pass Reads`) of a pycoQC summary document. -/
def mkBranch (mrl mps n50 rd ch reads bases : Int) : Yaml :=
  Yaml.dict
    [ ("basecall".toList, Yaml.dict
        [ ("len_percentiles".toList, Yaml.list (List.replicate 51 (Yaml.num mrl))),
          ("qual_score_percentiles".toList, Yaml.list (List.replicate 51 (Yaml.num mps))),
          ("N50".toList, Yaml.num n50),
          ("reads_number".toList, Yaml.num reads),
          ("bases_number".toList, Yaml.num bases),
          ("len_hist".toList, Yaml.dict
            [ ("x".toList, Yaml.list [Yaml.num 1]),
              ("y".toList, Yaml.list [Yaml.num 2]) ]),
          ("qual_score_hist".toList, Yaml.dict
            [ ("x".toList, Yaml.list [Yaml.num 3]),
              ("y".toList, Yaml.list [Yaml.num 4]) ]) ]),
      ("run".toList, Yaml.dict
        [ ("run_duration".toList, Yaml.num rd),
          ("active_channels".toList, Yaml.num ch) ]) ]

/-- A concrete pycoQC summary document. -/
def demoY : Yaml :=
  Yaml.dict
    [ ("All Reads".toList, mkBranch 500 12 800 3600 100 1000 500000),
      ("Pass Reads".toList, mkBranch 520 13 810 0 90 800 420000) ]

/-- What `setup_data` derives from `demoY`. -/
def demoSetupOut : SetupOut :=
  { row :=
      { all_median_read_length := Yaml.num 500
        all_median_phred_score := Yaml.num 12
        all_n50 := Yaml.num 800
        all_run_duration := Yaml.num 3600
        all_channels := Yaml.num 100
        all_reads := Yaml.num 1000
        all_bases := Yaml.num 500000
        passed_median_read_length := Yaml.num 520
        passed_median_phred_score := Yaml.num 13
        passed_n50 := Yaml.num 810
        passed_channels := Yaml.num 90
        passed_reads := Yaml.num 800
        passed_bases := Yaml.num 420000 }
    reads := { passed := 800, non_passed := 200 }
    bases := { passed := 420000, non_passed := 80000 }
    lenHistAll := [(Yaml.num 1, Yaml.num 2)]
    lenHistPass := [(Yaml.num 1, Yaml.num 2)]
    qualHistAll := [(Yaml.num 3, Yaml.num 4)]
    qualHistPass := [(Yaml.num 3, Yaml.num 4)] }

/-- A second single-end settings file, with a different length table than
`demoSingleLines` (only length 5). -/
def demoDupB : List Line :=
  [ "AdapterRemoval ver. 2.1.7".toList,
    "[Trimming statistics]".toList,
    "Total number of reads: 10".toList,
    "Number of unaligned reads: 4".toList,
    "Number of well aligned reads: 6".toList,
    "Number of discarded mate 1 reads: 1".toList,
    "Number of singleton mate 1 reads: 0".toList,
    "Number of reads with adapters: 5".toList,
    "Number of retained reads: 9".toList,
    "[Length distribution]".toList,
    "Length\tMate1\tDiscarded\tAll".toList,
    "5\t1\t1\t2".toList ]

/-! ## General lemmas -/

theorem beq_decide {α : Type} [BEq α] [LawfulBEq α] [DecidableEq α] (a b : α) :
    (a == b) = decide (a = b) := by
  by_cases h : a = b <;> simp [h]

theorem exBind_ok {ε α β : Type} {x : Except ε α} {f : α → Except ε β} {b : β}
    (h : x >>= f = Except.ok b) : ∃ a, x = Except.ok a ∧ f a = Except.ok b := by
  cases x with
  | ok a => exact ⟨a, rfl, h⟩
  | error e => simp only [Bind.bind, Except.bind] at h; exact absurd h (by simp)

theorem dlookup_dinsert_self {κ α : Type} [DecidableEq κ]
    (d : List (κ × α)) (k : κ) (v : α) : dlookup (dinsert d k v) k = some v := by
  induction d with
  | nil => simp [dinsert, dlookup]
  | cons p rest ih =>
    by_cases hpk : p.1 = k
    · simp [dinsert, hpk, dlookup]
    · simp [dinsert, hpk, dlookup, ih]

theorem dlookup_dinsert_ne {κ α : Type} [DecidableEq κ]
    (d : List (κ × α)) (k k' : κ) (v : α) (hne : k' ≠ k) :
    dlookup (dinsert d k v) k' = dlookup d k' := by
  induction d with
  | nil =>
    simp only [dinsert, dlookup]
    rw [if_neg (fun h => hne h.symm)]
  | cons p rest ih =>
    by_cases hpk : p.1 = k
    · simp only [dinsert, if_pos hpk, dlookup, hpk]
      rw [if_neg (fun h => hne h.symm), if_neg (fun h => hne h.symm)]
    · simp only [dinsert, if_neg hpk, dlookup, ih]

/-- Successful `set_trim_stat` always yields a record of the shape
`mkResult` with a non-zero `total`. -/
theorem set_trim_stat_shape (td : List Line) (p c : Bool) (r : ResultData)
    (h : set_trim_stat td p c = Except.ok r) :
    r.total ≠ 0 ∧
    r.reads_total = (if p then r.total * 2 else r.total) ∧
    r.aligned_total = (if p then r.aligned * 2 else r.aligned) ∧
    r.unaligned_total = (if p then r.unaligned * 2 else r.unaligned) ∧
    r.discarded_total = r.reads_total - r.retained ∧
    r.retained_reads = r.retained - r.singleton_m1 - r.singleton_m2 ∧
    r.percent_aligned_x100 = pyRoundDiv (r.aligned * 10000) r.total := by
  unfold set_trim_stat at h
  cases hf : readFields td p c with
  | error e => rw [hf] at h; exact absurd h (by simp)
  | ok vs =>
    rw [hf] at h
    obtain ⟨total, unaligned, aligned, dm1, sm1, ret, dm2, sm2, flcp, tcp⟩ := vs
    by_cases h0 : total = 0
    · simp only [h0, if_pos rfl] at h
      exact absurd h (by simp)
    · simp only [if_neg h0] at h
      have hr : r = mkResult p total unaligned aligned dm1 sm1 ret dm2 sm2 flcp tcp :=
        (Except.ok.inj h).symm
      subst hr
      refine ⟨h0, ?_, ?_, ?_, ?_, ?_, ?_⟩ <;> simp [mkResult]

/-- Successful `parse_settings_file` runs `set_trim_stat` successfully on
the `Trimming statistics` block with the classified mode. -/
theorem parse_ok_trim_ok (lines ld : List Line) (p c : Bool)
    (r : ResultData) (rows : List LenRow)
    (hld : dlookup (buildBlocks lines) ("Length distribution".toList) = some ld)
    (hart : set_ar_type ld = POut.ok (p, c))
    (hp : parse_settings_file lines = POut.ok (r, rows)) :
    ∃ td, dlookup (buildBlocks lines) ("Trimming statistics".toList) = some td ∧
      set_trim_stat td p c = Except.ok r ∧ set_len_dist ld p c = Except.ok rows := by
  simp only [parse_settings_file] at hp
  rw [hld] at hp
  dsimp only at hp
  rw [hart] at hp
  dsimp only at hp
  cases htd : dlookup (buildBlocks lines) ("Trimming statistics".toList) with
  | none => rw [htd] at hp; exact absurd hp (by simp)
  | some td =>
    rw [htd] at hp
    dsimp only at hp
    cases hts : set_trim_stat td p c with
    | error e => rw [hts] at hp; exact absurd hp (by simp)
    | ok r2 =>
      rw [hts] at hp
      dsimp only at hp
      cases hls : set_len_dist ld p c with
      | error e => rw [hls] at hp; exact absurd hp (by simp)
      | ok rows2 =>
        rw [hls] at hp
        dsimp only at hp
        have hpair : (r2, rows2) = (r, rows) := POut.ok.inj hp
        have hr : r2 = r := congrArg Prod.fst hpair
        have hrows : rows2 = rows := congrArg Prod.snd hpair
        subst hr
        subst hrows
        exact ⟨td, rfl, hts, rfl⟩

/-! ## Claims -/

/-- C3: for every successfully parsed AdapterRemoval settings file, the
derived read-count statistics satisfy: `reads_total`, `aligned_total` and
`unaligned_total` equal the parsed `total`, `aligned` and `unaligned`
counts multiplied by 2 when the read type is paired and unchanged when
single; `discarded_total = reads_total - retained`;
`retained_reads = retained - singleton_m1 - singleton_m2`; and
`percent_aligned = aligned * 100 / total` rounded to two decimal places
(carried as an exact count of hundredths, rounding ties to even as
CPython `round` does). -/
theorem C3_trim_stat_relations (lines ld : List Line) (p c : Bool)
    (r : ResultData) (rows : List LenRow)
    (hld : dlookup (buildBlocks lines) ("Length distribution".toList) = some ld)
    (hart : set_ar_type ld = POut.ok (p, c))
    (hp : parse_settings_file lines = POut.ok (r, rows)) :
    r.reads_total = (if p then r.total * 2 else r.total) ∧
    r.aligned_total = (if p then r.aligned * 2 else r.aligned) ∧
    r.unaligned_total = (if p then r.unaligned * 2 else r.unaligned) ∧
    r.discarded_total = r.reads_total - r.retained ∧
    r.retained_reads = r.retained - r.singleton_m1 - r.singleton_m2 ∧
    r.percent_aligned_x100 = pyRoundDiv (r.aligned * 10000) r.total := by
  obtain ⟨td, _, hts, _⟩ := parse_ok_trim_ok lines ld p c r rows hld hart hp
  obtain ⟨_, h1, h2, h3, h4, h5, h6⟩ := set_trim_stat_shape td p c r hts
  exact ⟨h1, h2, h3, h4, h5, h6⟩

/-- C3 witness: the relations instantiated on a concrete single-end
settings file. -/
theorem C3_witness :
    demoSingleR.reads_total =
      (if (false : Bool) then demoSingleR.total * 2 else demoSingleR.total) ∧
    demoSingleR.aligned_total =
      (if (false : Bool) then demoSingleR.aligned * 2 else demoSingleR.aligned) ∧
    demoSingleR.unaligned_total =
      (if (false : Bool) then demoSingleR.unaligned * 2 else demoSingleR.unaligned) ∧
    demoSingleR.discarded_total = demoSingleR.reads_total - demoSingleR.retained ∧
    demoSingleR.retained_reads =
      demoSingleR.retained - demoSingleR.singleton_m1 - demoSingleR.singleton_m2 ∧
    demoSingleR.percent_aligned_x100 =
      pyRoundDiv (demoSingleR.aligned * 10000) demoSingleR.total :=
  C3_trim_stat_relations demoSingleLines demoSingleLD false false
    demoSingleR demoSingleRows rfl rfl rfl

/-- C6: `set_ar_type` classifies a settings file as read type `paired`
exactly when the third tab-separated column of the first `Length
distribution` line is `Mate2` (otherwise `single`), and as collapsed
exactly when the third-from-last column of that line is
`CollapsedTruncated`; the single-and-collapsed combination aborts with
`UserWarning` instead of returning a classification. -/
theorem C6_ar_type (ld : List Line) (hl : Line) (hs : List Line) (col2 col3 : Line)
    (h0 : ld.get? 0 = some hl) (hhs : hs = splitOnChar '\t' hl)
    (hlen : 3 ≤ hs.length)
    (hcol2 : hs.get? 2 = some col2)
    (hcol3 : hs.get? (hs.length - 3) = some col3) :
    set_ar_type ld =
      (if col2 ≠ "Mate2".toList ∧ col3 = "CollapsedTruncated".toList
       then POut.uw
       else POut.ok (decide (col2 = "Mate2".toList),
                     decide (col3 = "CollapsedTruncated".toList))) := by
  subst hhs
  simp only [set_ar_type, h0]
  rw [if_pos hlen]
  simp only [getDL, hcol2, hcol3, Option.getD_some, beq_decide]
  by_cases hm : col2 = "Mate2".toList <;>
    by_cases hc : col3 = "CollapsedTruncated".toList <;>
    simp [hm, hc]

/-- C6 witness: the classification evaluated on the concrete single-end
collapsed header. -/
theorem C6_witness :
    set_ar_type demoSCLD =
      (if "CollapsedTruncated".toList ≠ "Mate2".toList ∧
          "CollapsedTruncated".toList = "CollapsedTruncated".toList
       then POut.uw
       else POut.ok (decide ("CollapsedTruncated".toList = "Mate2".toList),
                     decide ("CollapsedTruncated".toList = "CollapsedTruncated".toList))) :=
  C6_ar_type demoSCLD ("Length\tMate1\tCollapsedTruncated\tDiscarded\tAll".toList)
    demoSCCols ("CollapsedTruncated".toList) ("CollapsedTruncated".toList)
    rfl rfl (by decide) (by decide) (by decide)

/-- C2: a settings file whose `Length distribution` header classifies the
run as both single-end and collapsed makes the parse abort with
`UserWarning`, and the `__init__` loop therefore skips the file, leaving
the module state (so also the per-sample data mapping) unchanged. -/
theorem C2_single_collapsed_skipped (lines ld : List Line) (hl : Line)
    (hs : List Line) (col2 col3 : Line) (st : ARState) (n : Line)
    (hld : dlookup (buildBlocks lines) ("Length distribution".toList) = some ld)
    (h0 : ld.get? 0 = some hl)
    (hhs : hs = splitOnChar '\t' hl)
    (hlen : 3 ≤ hs.length)
    (hcol2 : hs.get? 2 = some col2)
    (hcol3 : hs.get? (hs.length - 3) = some col3)
    (hm : col2 ≠ "Mate2".toList)
    (hc : col3 = "CollapsedTruncated".toList) :
    parse_settings_file lines = POut.uw ∧ stepAR st (n, lines) = POut.ok st := by
  have hart : set_ar_type ld = POut.uw := by
    subst hhs
    simp only [set_ar_type, h0]
    rw [if_pos hlen]
    simp only [getDL, hcol2, hcol3, Option.getD_some, beq_decide]
    have hm2 : ¬col2 = ['M', 'a', 't', 'e', '2'] := hm
    have hc2 : col3 = ['C', 'o', 'l', 'l', 'a', 'p', 's', 'e', 'd',
      'T', 'r', 'u', 'n', 'c', 'a', 't', 'e', 'd'] := hc
    simp [hm2, hc2]
  have hp : parse_settings_file lines = POut.uw := by
    simp only [parse_settings_file]
    rw [hld]
    dsimp only
    rw [hart]
  refine ⟨hp, ?_⟩
  simp only [stepAR]
  rw [hp]

/-- C2 witness: the concrete single-end collapsed file is skipped and a
concrete state is left untouched. -/
theorem C2_witness :
    parse_settings_file demoSCLines = POut.uw ∧
    stepAR initAR (("sampleB".toList), demoSCLines) = POut.ok initAR :=
  C2_single_collapsed_skipped demoSCLines demoSCLD
    ("Length\tMate1\tCollapsedTruncated\tDiscarded\tAll".toList)
    demoSCCols ("CollapsedTruncated".toList) ("CollapsedTruncated".toList)
    initAR ("sampleB".toList) rfl rfl rfl (by decide) rfl rfl (by decide) rfl

/-- C8: `set_trim_stat` divides by the parsed `total` with no guard: when
every required field parses and `total = 0`, evaluation fails with
`ZeroDivisionError`; when `total ≠ 0` the division is safe and the
`ZeroDivisionError` branch is unreachable (the only other failures are the
field-parsing errors themselves). -/
theorem C8_divide_by_total (td : List Line) (p c : Bool) :
    (∀ vs, readFields td p c = Except.ok vs → vs.1 = 0 →
        set_trim_stat td p c = Except.error PyErr.zeroDivisionError) ∧
    (∀ vs, readFields td p c = Except.ok vs → vs.1 ≠ 0 →
        set_trim_stat td p c ≠ Except.error PyErr.zeroDivisionError) ∧
    (∀ e, readFields td p c = Except.error e →
        set_trim_stat td p c = Except.error e) := by
  refine ⟨?_, ?_, ?_⟩
  · intro vs h h0
    obtain ⟨total, unaligned, aligned, dm1, sm1, ret, dm2, sm2, flcp, tcp⟩ := vs
    simp only [set_trim_stat]
    rw [h]
    dsimp only
    rw [if_pos h0]
  · intro vs h h0
    obtain ⟨total, unaligned, aligned, dm1, sm1, ret, dm2, sm2, flcp, tcp⟩ := vs
    simp only [set_trim_stat]
    rw [h]
    dsimp only
    rw [if_neg h0]
    simp
  · intro e h
    simp only [set_trim_stat]
    rw [h]

/-- C8 witness: a concrete block with `total = 0` raises
`ZeroDivisionError`, and the concrete block with `total = 1000` does not. -/
theorem C8_witness :
    set_trim_stat demoZeroTd false false = Except.error PyErr.zeroDivisionError ∧
    set_trim_stat demoTrimTd false false ≠ Except.error PyErr.zeroDivisionError :=
  ⟨(C8_divide_by_total demoZeroTd false false).1
      (0, 1, 2, 3, 4, 6, 0, 0, 0, 0) rfl rfl,
   (C8_divide_by_total demoTrimTd false false).2.1
      (1000, 200, 800, 50, 0, 950, 0, 0, 0, 0) rfl (by decide)⟩

theorem col_ok_colD (cols : List Int) (i : Nat) (v : Int)
    (h : col cols i = Except.ok v) : colD cols i = v := by
  unfold col at h
  unfold colD
  cases hg : cols.get? i with
  | none => rw [hg] at h; exact absurd h (by simp)
  | some w => rw [hg] at h; simpa using Except.ok.inj h

theorem rowOfCols_some (p c : Bool) (cols : List Int) (r : Option LenRow)
    (hmode : ¬(p = false ∧ c = true)) (h : rowOfCols p c cols = Except.ok r) :
    ∃ row, r = some row := by
  cases p <;> cases c
  · simp only [rowOfCols] at h
    obtain ⟨c0, h0, h⟩ := exBind_ok h
    obtain ⟨c1, h1, h⟩ := exBind_ok h
    obtain ⟨c2, h2, h⟩ := exBind_ok h
    obtain ⟨c3, h3, h⟩ := exBind_ok h
    simp only [pure, Except.pure] at h
    exact ⟨_, (Except.ok.inj h).symm⟩
  · exact absurd ⟨rfl, rfl⟩ hmode
  · simp only [rowOfCols] at h
    obtain ⟨c0, h0, h⟩ := exBind_ok h
    obtain ⟨c1, h1, h⟩ := exBind_ok h
    obtain ⟨c2, h2, h⟩ := exBind_ok h
    obtain ⟨c3, h3, h⟩ := exBind_ok h
    obtain ⟨c4, h4, h⟩ := exBind_ok h
    obtain ⟨c5, h5, h⟩ := exBind_ok h
    simp only [pure, Except.pure] at h
    exact ⟨_, (Except.ok.inj h).symm⟩
  · simp only [rowOfCols] at h
    obtain ⟨c0, h0, h⟩ := exBind_ok h
    obtain ⟨c1, h1, h⟩ := exBind_ok h
    obtain ⟨c2, h2, h⟩ := exBind_ok h
    obtain ⟨c3, h3, h⟩ := exBind_ok h
    obtain ⟨c4, h4, h⟩ := exBind_ok h
    obtain ⟨c5, h5, h⟩ := exBind_ok h
    obtain ⟨c6, h6, h⟩ := exBind_ok h
    obtain ⟨c7, h7, h⟩ := exBind_ok h
    simp only [pure, Except.pure] at h
    exact ⟨_, (Except.ok.inj h).symm⟩

theorem rowOfCols_spec (p c : Bool) (cols : List Int) (row : LenRow)
    (hmode : ¬(p = false ∧ c = true))
    (h : rowOfCols p c cols = Except.ok (some row)) :
    row.len = colD cols 0 ∧
    row.mate1 = colD cols 1 ∧
    row.mate2 = (if p then colD cols 2 else 0) ∧
    row.singleton = (if p then colD cols 3 else 0) ∧
    row.collapsed = (if p && c then colD cols 4 else 0) ∧
    row.collapsed_truncated = (if p && c then colD cols 5 else 0) ∧
    row.discarged =
      (if p then (if c then colD cols 6 else colD cols 4) else colD cols 2) ∧
    row.all =
      (if p then (if c then colD cols 7 else colD cols 5) else colD cols 3) := by
  cases p <;> cases c
  · simp only [rowOfCols] at h
    obtain ⟨c0, h0, h⟩ := exBind_ok h
    obtain ⟨c1, h1, h⟩ := exBind_ok h
    obtain ⟨c2, h2, h⟩ := exBind_ok h
    obtain ⟨c3, h3, h⟩ := exBind_ok h
    simp only [pure, Except.pure] at h
    have hrow := Option.some.inj (Except.ok.inj h)
    subst hrow
    simp [col_ok_colD _ _ _ h0, col_ok_colD _ _ _ h1,
      col_ok_colD _ _ _ h2, col_ok_colD _ _ _ h3]
  · exact absurd ⟨rfl, rfl⟩ hmode
  · simp only [rowOfCols] at h
    obtain ⟨c0, h0, h⟩ := exBind_ok h
    obtain ⟨c1, h1, h⟩ := exBind_ok h
    obtain ⟨c2, h2, h⟩ := exBind_ok h
    obtain ⟨c3, h3, h⟩ := exBind_ok h
    obtain ⟨c4, h4, h⟩ := exBind_ok h
    obtain ⟨c5, h5, h⟩ := exBind_ok h
    simp only [pure, Except.pure] at h
    have hrow := Option.some.inj (Except.ok.inj h)
    subst hrow
    simp [col_ok_colD _ _ _ h0, col_ok_colD _ _ _ h1, col_ok_colD _ _ _ h2,
      col_ok_colD _ _ _ h3, col_ok_colD _ _ _ h4, col_ok_colD _ _ _ h5]
  · simp only [rowOfCols] at h
    obtain ⟨c0, h0, h⟩ := exBind_ok h
    obtain ⟨c1, h1, h⟩ := exBind_ok h
    obtain ⟨c2, h2, h⟩ := exBind_ok h
    obtain ⟨c3, h3, h⟩ := exBind_ok h
    obtain ⟨c4, h4, h⟩ := exBind_ok h
    obtain ⟨c5, h5, h⟩ := exBind_ok h
    obtain ⟨c6, h6, h⟩ := exBind_ok h
    obtain ⟨c7, h7, h⟩ := exBind_ok h
    simp only [pure, Except.pure] at h
    have hrow := Option.some.inj (Except.ok.inj h)
    subst hrow
    simp [col_ok_colD _ _ _ h0, col_ok_colD _ _ _ h1, col_ok_colD _ _ _ h2,
      col_ok_colD _ _ _ h3, col_ok_colD _ _ _ h4, col_ok_colD _ _ _ h5,
      col_ok_colD _ _ _ h6, col_ok_colD _ _ _ h7]

theorem lenRows_spec (p c : Bool) (hmode : ¬(p = false ∧ c = true)) :
    ∀ (ls : List Line) (rows : List LenRow), lenRows p c ls = Except.ok rows →
      rows.length = ls.length ∧
      (∀ i line cols row, ls.get? i = some line →
        (splitOnChar '\t' line).mapM toIntPy = some cols →
        rows.get? i = some row →
        (row.len = colD cols 0 ∧
         row.mate1 = colD cols 1 ∧
         row.mate2 = (if p then colD cols 2 else 0) ∧
         row.singleton = (if p then colD cols 3 else 0) ∧
         row.collapsed = (if p && c then colD cols 4 else 0) ∧
         row.collapsed_truncated = (if p && c then colD cols 5 else 0) ∧
         row.discarged =
           (if p then (if c then colD cols 6 else colD cols 4) else colD cols 2) ∧
         row.all =
           (if p then (if c then colD cols 7 else colD cols 5) else colD cols 3))) := by
  intro ls
  induction ls with
  | nil =>
    intro rows h
    simp only [lenRows] at h
    have hrows : ([] : List LenRow) = rows := Except.ok.inj h
    subst hrows
    exact ⟨rfl, fun i line cols row hl _ _ => absurd hl (by simp)⟩
  | cons line0 rest ih =>
    intro rows h
    simp only [lenRows] at h
    cases hm : (splitOnChar '\t' line0).mapM toIntPy with
    | none => rw [hm] at h; exact absurd h (by simp)
    | some cols0 =>
      rw [hm] at h
      dsimp only at h
      cases hr : rowOfCols p c cols0 with
      | error e => rw [hr] at h; exact absurd h (by simp)
      | ok r =>
        rw [hr] at h
        dsimp only at h
        cases hrest : lenRows p c rest with
        | error e => rw [hrest] at h; exact absurd h (by simp)
        | ok rs =>
          rw [hrest] at h
          dsimp only at h
          obtain ⟨row0, hsome⟩ := rowOfCols_some p c cols0 r hmode hr
          subst hsome
          dsimp only at h
          have hrows : row0 :: rs = rows := Except.ok.inj h
          subst hrows
          obtain ⟨ihlen, ihrel⟩ := ih rs hrest
          refine ⟨by simp [ihlen], ?_⟩
          intro i line cols row hl hcols hrow
          cases i with
          | zero =>
            have hline : line0 = line := by simpa using hl
            subst hline
            have hcols0 : cols0 = cols := Option.some.inj (hm.symm.trans hcols)
            subst hcols0
            have hrow0 : row0 = row := by simpa using hrow
            subst hrow0
            exact rowOfCols_spec p c cols0 row0 hmode hr
          | succ j =>
            exact ihrel j line cols row (by simpa using hl) hcols (by simpa using hrow)

/-- C4: for every successfully parsed settings file and every data row of
the `Length distribution` table, `set_len_dist` records one count under
each of exactly seven read categories (`mate1`, `mate2`, `singleton`,
`collapsed`, `collapsed_truncated`, `discarged`, `all`), taking the counts
from fixed tab-separated columns determined by the run mode and storing
`0` for the categories that mode does not produce (`mate2`, `singleton`,
`collapsed`, `collapsed_truncated` for single-end; `collapsed`,
`collapsed_truncated` for paired non-collapsed). -/
theorem C4_len_dist (ldLines : List Line) (p c : Bool) (rows : List LenRow)
    (hmode : ¬(p = false ∧ c = true))
    (h : set_len_dist ldLines p c = Except.ok rows) :
    rows.length = (ldLines.drop 1).length ∧
    (∀ i line cols row, (ldLines.drop 1).get? i = some line →
      (splitOnChar '\t' line).mapM toIntPy = some cols →
      rows.get? i = some row →
      (row.len = colD cols 0 ∧
       row.mate1 = colD cols 1 ∧
       row.mate2 = (if p then colD cols 2 else 0) ∧
       row.singleton = (if p then colD cols 3 else 0) ∧
       row.collapsed = (if p && c then colD cols 4 else 0) ∧
       row.collapsed_truncated = (if p && c then colD cols 5 else 0) ∧
       row.discarged =
         (if p then (if c then colD cols 6 else colD cols 4) else colD cols 2) ∧
       row.all =
         (if p then (if c then colD cols 7 else colD cols 5) else colD cols 3))) :=
  lenRows_spec p c hmode (ldLines.drop 1) rows h

/-- C4 witness: the category columns evaluated on a concrete single-end
length-distribution table at its second data row. -/
theorem C4_witness :
    demoSingleRows.length = (demoSingleLD.drop 1).length ∧
    ((⟨1, 5, 0, 0, 0, 0, 2, 7⟩ : LenRow).len = colD [1, 5, 2, 7] 0 ∧
     (⟨1, 5, 0, 0, 0, 0, 2, 7⟩ : LenRow).mate1 = colD [1, 5, 2, 7] 1 ∧
     (⟨1, 5, 0, 0, 0, 0, 2, 7⟩ : LenRow).mate2 =
       (if (false : Bool) then colD [1, 5, 2, 7] 2 else 0) ∧
     (⟨1, 5, 0, 0, 0, 0, 2, 7⟩ : LenRow).singleton =
       (if (false : Bool) then colD [1, 5, 2, 7] 3 else 0) ∧
     (⟨1, 5, 0, 0, 0, 0, 2, 7⟩ : LenRow).collapsed =
       (if (false && false : Bool) then colD [1, 5, 2, 7] 4 else 0) ∧
     (⟨1, 5, 0, 0, 0, 0, 2, 7⟩ : LenRow).collapsed_truncated =
       (if (false && false : Bool) then colD [1, 5, 2, 7] 5 else 0) ∧
     (⟨1, 5, 0, 0, 0, 0, 2, 7⟩ : LenRow).discarged =
       (if (false : Bool) then
         (if (false : Bool) then colD [1, 5, 2, 7] 6 else colD [1, 5, 2, 7] 4)
        else colD [1, 5, 2, 7] 2) ∧
     (⟨1, 5, 0, 0, 0, 0, 2, 7⟩ : LenRow).all =
       (if (false : Bool) then
         (if (false : Bool) then colD [1, 5, 2, 7] 7 else colD [1, 5, 2, 7] 5)
        else colD [1, 5, 2, 7] 3)) :=
  ⟨(C4_len_dist demoSingleLD false false demoSingleRows (by simp) rfl).1,
   (C4_len_dist demoSingleLD false false demoSingleRows (by simp) rfl).2
     1 ("1\t5\t2\t7".toList) [1, 5, 2, 7] ⟨1, 5, 0, 0, 0, 0, 2, 7⟩ rfl rfl rfl⟩

theorem ofExcept_ne_uw {α : Type} (x : Except PyErr α) :
    POut.ofExcept x ≠ POut.uw := by
  cases x <;> simp [POut.ofExcept]

theorem dinsert_ne_nil {κ α : Type} [DecidableEq κ]
    (d : List (κ × α)) (k : κ) (v : α) : dinsert d k v ≠ [] := by
  cases d with
  | nil => simp [dinsert]
  | cons p rest => simp only [dinsert]; split <;> simp

theorem pycoFoldl_ne_nil (files : List (Line × Yaml)) :
    ∀ d : List (Line × Yaml), d ≠ [] →
      files.foldl (fun d f => dinsert d f.1 (parse_logs f.2)) d ≠ [] := by
  induction files with
  | nil => intro d hd; simpa using hd
  | cons f rest ih =>
    intro d hd
    simp only [List.foldl_cons]
    exact ih (dinsert d f.1 (parse_logs f.2)) (dinsert_ne_nil d f.1 (parse_logs f.2))

/-- C1: each module signals "nothing to report" by raising `UserWarning`
if and only if, after processing every discovered log file, its per-sample
data mapping is empty.  For AdapterRemoval (when the file loop itself runs
to completion) the abort happens exactly when `adapter_removal_data` ended
up empty, so it cannot happen once one sample parses; for pycoQC (which
never skips a file) the abort happens exactly when the mapping is empty,
which happens exactly when zero files were found. -/
theorem C1_nothing_to_report (arFiles : List (Line × List Line)) (st : ARState)
    (pyFiles : List (Line × Yaml))
    (h : loopAR arFiles initAR = POut.ok st) :
    ((runAR arFiles = POut.uw) ↔ st.data = []) ∧
    ((runPyco pyFiles = POut.uw) ↔ runPycoLoop pyFiles = []) ∧
    (runPycoLoop pyFiles = [] ↔ pyFiles = []) := by
  refine ⟨?_, ?_, ?_⟩
  · simp only [runAR]
    rw [h]
    dsimp only
    by_cases hd : st.data = [] <;> simp [hd]
  · by_cases hd : runPycoLoop pyFiles = []
    · simp [runPyco, hd]
    · simp [runPyco, List.isEmpty_iff, hd, ofExcept_ne_uw]
  · constructor
    · intro h2
      cases pyFiles with
      | nil => rfl
      | cons f rest =>
        exact absurd h2
          (by
            simp only [runPycoLoop, List.foldl_cons]
            exact pycoFoldl_ne_nil rest _ (dinsert_ne_nil [] f.1 (parse_logs f.2)))
    · intro h2
      subst h2
      rfl

/-- C1 witness: the abort condition evaluated on one parsed AdapterRemoval
file and one discovered pycoQC file. -/
theorem C1_witness :
    ((runAR [(("sampleA".toList), demoSingleLines)] = POut.uw) ↔
      (arStateAfter [(("sampleA".toList), demoSingleLines)]).data = []) ∧
    ((runPyco [(("s1".toList), demoY)] = POut.uw) ↔
      runPycoLoop [(("s1".toList), demoY)] = []) ∧
    (runPycoLoop [(("s1".toList), demoY)] = [] ↔
      [(("s1".toList), demoY)] = []) :=
  C1_nothing_to_report [(("sampleA".toList), demoSingleLines)]
    (arStateAfter [(("sampleA".toList), demoSingleLines)])
    [(("s1".toList), demoY)] rfl

theorem mem_dkeys_dinsert {κ α : Type} [DecidableEq κ]
    (d : List (κ × α)) (k : κ) (v : α) (a : κ) :
    a ∈ dkeys (dinsert d k v) ↔ a ∈ dkeys d ∨ a = k := by
  induction d with
  | nil => simp [dinsert, dkeys]
  | cons p rest ih =>
    obtain ⟨pk, pv⟩ := p
    by_cases hpk : pk = k
    · subst hpk
      simp only [dinsert, if_true]
      simp only [dkeys, List.map_cons, List.mem_cons]
      tauto
    · simp only [dinsert]
      rw [if_neg hpk]
      simp only [dkeys, List.map_cons, List.mem_cons]
      have ih2 : a ∈ (dinsert rest k v).map (fun p => p.1) ↔
          a ∈ rest.map (fun p => p.1) ∨ a = k := ih
      rw [ih2]
      tauto

theorem nodup_dkeys_dinsert {κ α : Type} [DecidableEq κ]
    (d : List (κ × α)) (k : κ) (v : α) (h : (dkeys d).Nodup) :
    (dkeys (dinsert d k v)).Nodup := by
  induction d with
  | nil => simp [dinsert, dkeys]
  | cons p rest ih =>
    simp only [dkeys, List.map_cons, List.nodup_cons] at h
    obtain ⟨hp, hrest⟩ := h
    by_cases hpk : p.1 = k
    · simp only [dinsert, if_pos hpk, dkeys, List.map_cons, List.nodup_cons]
      exact ⟨hpk ▸ hp, hrest⟩
    · simp only [dinsert, if_neg hpk, dkeys, List.map_cons, List.nodup_cons]
      refine ⟨?_, ih hrest⟩
      rw [show (dinsert rest k v).map (fun p => p.1) = dkeys (dinsert rest k v) from rfl]
      rw [mem_dkeys_dinsert]
      rintro (hmem | heq)
      · exact hp (by simpa [dkeys] using hmem)
      · exact hpk heq

theorem pycoFoldl_lookup (files : List (Line × Yaml)) :
    ∀ (d : List (Line × Yaml)) (s : Line),
      dlookup (files.foldl (fun d f => dinsert d f.1 (parse_logs f.2)) d) s =
      files.foldl (fun acc f => if f.1 = s then some (parse_logs f.2) else acc)
        (dlookup d s) := by
  induction files with
  | nil => intro d s; rfl
  | cons f rest ih =>
    intro d s
    simp only [List.foldl_cons]
    rw [ih]
    by_cases hf : f.1 = s
    · rw [if_pos hf, ← hf, dlookup_dinsert_self]
    · rw [if_neg hf, dlookup_dinsert_ne _ _ _ _ (fun h => hf h.symm)]

theorem pycoFoldl_nodup (files : List (Line × Yaml)) :
    ∀ d : List (Line × Yaml), (dkeys d).Nodup →
      (dkeys (files.foldl (fun d f => dinsert d f.1 (parse_logs f.2)) d)).Nodup := by
  induction files with
  | nil => intro d hd; exact hd
  | cons f rest ih =>
    intro d hd
    simp only [List.foldl_cons]
    exact ih _ (nodup_dkeys_dinsert d f.1 (parse_logs f.2) hd)

theorem pycoFoldl_mem (files : List (Line × Yaml)) :
    ∀ (d : List (Line × Yaml)) (s : Line),
      s ∈ dkeys (files.foldl (fun d f => dinsert d f.1 (parse_logs f.2)) d) ↔
      s ∈ dkeys d ∨ s ∈ files.map (fun f => f.1) := by
  induction files with
  | nil => intro d s; simp
  | cons f rest ih =>
    intro d s
    simp only [List.foldl_cons, List.map_cons, List.mem_cons]
    rw [ih, mem_dkeys_dinsert]
    tauto

/-- C10: when two discovered pycoQC files carry the same sample name, the
later-processed file's parsed data replaces the earlier one's entry in
`pycoqc_data` (last write wins); the duplicate is only logged, never
rejected, so the final mapping holds exactly one record (duplicate-free
keys) for exactly the discovered sample names. -/
theorem C10_last_write_wins (files : List (Line × Yaml)) (s : Line) :
    dlookup (runPycoLoop files) s = lastMatch files s ∧
    (dkeys (runPycoLoop files)).Nodup ∧
    (s ∈ dkeys (runPycoLoop files) ↔ s ∈ files.map (fun f => f.1)) := by
  refine ⟨?_, ?_, ?_⟩
  · rw [runPycoLoop, lastMatch, pycoFoldl_lookup]
    rfl
  · exact pycoFoldl_nodup files [] List.Pairwise.nil
  · rw [runPycoLoop, pycoFoldl_mem]
    show s ∈ ([] : List Line) ∨ s ∈ files.map (fun f => f.1) ↔
      s ∈ files.map (fun f => f.1)
    constructor
    · rintro (h | h)
      · exact absurd h (List.not_mem_nil s)
      · exact h
    · exact Or.inr

theorem setupSample_fields (y : Yaml) (o : SetupOut)
    (h : setupSample y = Except.ok o) :
    (pathBasecall y ("All Reads".toList) ("len_percentiles".toList)).bind
      (fun v => v.getIdx 50) = Except.ok o.row.all_median_read_length ∧
    (pathBasecall y ("All Reads".toList) ("qual_score_percentiles".toList)).bind
      (fun v => v.getIdx 50) = Except.ok o.row.all_median_phred_score ∧
    pathBasecall y ("All Reads".toList) ("N50".toList) =
      Except.ok o.row.all_n50 ∧
    pathRun y ("All Reads".toList) ("run_duration".toList) =
      Except.ok o.row.all_run_duration ∧
    pathRun y ("All Reads".toList) ("active_channels".toList) =
      Except.ok o.row.all_channels ∧
    pathBasecall y ("All Reads".toList) ("reads_number".toList) =
      Except.ok o.row.all_reads ∧
    pathBasecall y ("All Reads".toList) ("bases_number".toList) =
      Except.ok o.row.all_bases ∧
    (pathBasecall y ("Pass Reads".toList) ("len_percentiles".toList)).bind
      (fun v => v.getIdx 50) = Except.ok o.row.passed_median_read_length ∧
    (pathBasecall y ("Pass Reads".toList) ("qual_score_percentiles".toList)).bind
      (fun v => v.getIdx 50) = Except.ok o.row.passed_median_phred_score ∧
    pathBasecall y ("Pass Reads".toList) ("N50".toList) =
      Except.ok o.row.passed_n50 ∧
    pathRun y ("Pass Reads".toList) ("active_channels".toList) =
      Except.ok o.row.passed_channels ∧
    pathBasecall y ("Pass Reads".toList) ("reads_number".toList) =
      Except.ok o.row.passed_reads ∧
    pathBasecall y ("Pass Reads".toList) ("bases_number".toList) =
      Except.ok o.row.passed_bases ∧
    (pathBasecall y ("All Reads".toList) ("reads_number".toList)).bind Yaml.asNum =
      Except.ok (o.reads.passed + o.reads.non_passed) ∧
    (pathBasecall y ("All Reads".toList) ("bases_number".toList)).bind Yaml.asNum =
      Except.ok (o.bases.passed + o.bases.non_passed) ∧
    (pathBasecall y ("Pass Reads".toList) ("reads_number".toList)).bind Yaml.asNum =
      Except.ok o.reads.passed ∧
    (pathBasecall y ("Pass Reads".toList) ("bases_number".toList)).bind Yaml.asNum =
      Except.ok o.bases.passed := by
  simp only [setupSample] at h
  obtain ⟨amrl, h1, h⟩ := exBind_ok h
  obtain ⟨amps, h2, h⟩ := exBind_ok h
  obtain ⟨an50, h3, h⟩ := exBind_ok h
  obtain ⟨ard, h4, h⟩ := exBind_ok h
  obtain ⟨ach, h5, h⟩ := exBind_ok h
  obtain ⟨areads, h6, h⟩ := exBind_ok h
  obtain ⟨abases, h7, h⟩ := exBind_ok h
  obtain ⟨pmrl, h8, h⟩ := exBind_ok h
  obtain ⟨pmps, h9, h⟩ := exBind_ok h
  obtain ⟨pn50, h10, h⟩ := exBind_ok h
  obtain ⟨pch, h11, h⟩ := exBind_ok h
  obtain ⟨preads, h12, h⟩ := exBind_ok h
  obtain ⟨pbases, h13, h⟩ := exBind_ok h
  obtain ⟨preadsN, h14, h⟩ := exBind_ok h
  obtain ⟨areadsN, h15, h⟩ := exBind_ok h
  obtain ⟨pbasesN, h16, h⟩ := exBind_ok h
  obtain ⟨abasesN, h17, h⟩ := exBind_ok h
  obtain ⟨lxa, h18, h⟩ := exBind_ok h
  obtain ⟨lya, h19, h⟩ := exBind_ok h
  obtain ⟨lha, h20, h⟩ := exBind_ok h
  obtain ⟨lxp, h21, h⟩ := exBind_ok h
  obtain ⟨lyp, h22, h⟩ := exBind_ok h
  obtain ⟨lhp, h23, h⟩ := exBind_ok h
  obtain ⟨qxa, h24, h⟩ := exBind_ok h
  obtain ⟨qya, h25, h⟩ := exBind_ok h
  obtain ⟨qha, h26, h⟩ := exBind_ok h
  obtain ⟨qxp, h27, h⟩ := exBind_ok h
  obtain ⟨qyp, h28, h⟩ := exBind_ok h
  obtain ⟨qhp, h29, h⟩ := exBind_ok h
  simp only [pure, Except.pure] at h
  have ho := Except.ok.inj h
  subst ho
  refine ⟨h1, h2, h3, h4, h5, h6, h7, h8, h9, h10, h11, h12, h13, ?_, ?_, ?_, ?_⟩
  · rw [h6]
    dsimp only [Except.bind]
    rw [h15]
    have harith : areadsN = preadsN + (areadsN - preadsN) := by omega
    rw [← harith]
  · rw [h7]
    dsimp only [Except.bind]
    rw [h17]
    have harith : abasesN = pbasesN + (abasesN - pbasesN) := by omega
    rw [← harith]
  · rw [h12]
    dsimp only [Except.bind]
    exact h14
  · rw [h13]
    dsimp only [Except.bind]
    exact h16

/-- C5: for every pycoQC sample, `setup_data` projects the deserialised
YAML document into a flat record by fixed nested-field lookups: median
read length is `['basecall']['len_percentiles'][50]`, median PHRED score
is `['basecall']['qual_score_percentiles'][50]`, and N50, run duration,
active channels, `reads_number` and `bases_number` are taken directly,
each from the `All Reads` branch for the `all_*` fields and from the
`Pass Reads` branch for the `passed_*` fields (run duration from
`All Reads` only). -/
theorem C5_setup_projection (y : Yaml) (o : SetupOut)
    (h : setupSample y = Except.ok o) :
    (pathBasecall y ("All Reads".toList) ("len_percentiles".toList)).bind
      (fun v => v.getIdx 50) = Except.ok o.row.all_median_read_length ∧
    (pathBasecall y ("All Reads".toList) ("qual_score_percentiles".toList)).bind
      (fun v => v.getIdx 50) = Except.ok o.row.all_median_phred_score ∧
    pathBasecall y ("All Reads".toList) ("N50".toList) =
      Except.ok o.row.all_n50 ∧
    pathRun y ("All Reads".toList) ("run_duration".toList) =
      Except.ok o.row.all_run_duration ∧
    pathRun y ("All Reads".toList) ("active_channels".toList) =
      Except.ok o.row.all_channels ∧
    pathBasecall y ("All Reads".toList) ("reads_number".toList) =
      Except.ok o.row.all_reads ∧
    pathBasecall y ("All Reads".toList) ("bases_number".toList) =
      Except.ok o.row.all_bases ∧
    (pathBasecall y ("Pass Reads".toList) ("len_percentiles".toList)).bind
      (fun v => v.getIdx 50) = Except.ok o.row.passed_median_read_length ∧
    (pathBasecall y ("Pass Reads".toList) ("qual_score_percentiles".toList)).bind
      (fun v => v.getIdx 50) = Except.ok o.row.passed_median_phred_score ∧
    pathBasecall y ("Pass Reads".toList) ("N50".toList) =
      Except.ok o.row.passed_n50 ∧
    pathRun y ("Pass Reads".toList) ("active_channels".toList) =
      Except.ok o.row.passed_channels ∧
    pathBasecall y ("Pass Reads".toList) ("reads_number".toList) =
      Except.ok o.row.passed_reads ∧
    pathBasecall y ("Pass Reads".toList) ("bases_number".toList) =
      Except.ok o.row.passed_bases := by
  obtain ⟨c1, c2, c3, c4, c5, c6, c7, c8, c9, c10, c11, c12, c13, _⟩ :=
    setupSample_fields y o h
  exact ⟨c1, c2, c3, c4, c5, c6, c7, c8, c9, c10, c11, c12, c13⟩

/-- C5 witness: the projections evaluated on a concrete pycoQC document. -/
theorem C5_witness :
    (pathBasecall demoY ("All Reads".toList) ("len_percentiles".toList)).bind
      (fun v => v.getIdx 50) = Except.ok demoSetupOut.row.all_median_read_length ∧
    (pathBasecall demoY ("All Reads".toList) ("qual_score_percentiles".toList)).bind
      (fun v => v.getIdx 50) = Except.ok demoSetupOut.row.all_median_phred_score ∧
    pathBasecall demoY ("All Reads".toList) ("N50".toList) =
      Except.ok demoSetupOut.row.all_n50 ∧
    pathRun demoY ("All Reads".toList) ("run_duration".toList) =
      Except.ok demoSetupOut.row.all_run_duration ∧
    pathRun demoY ("All Reads".toList) ("active_channels".toList) =
      Except.ok demoSetupOut.row.all_channels ∧
    pathBasecall demoY ("All Reads".toList) ("reads_number".toList) =
      Except.ok demoSetupOut.row.all_reads ∧
    pathBasecall demoY ("All Reads".toList) ("bases_number".toList) =
      Except.ok demoSetupOut.row.all_bases ∧
    (pathBasecall demoY ("Pass Reads".toList) ("len_percentiles".toList)).bind
      (fun v => v.getIdx 50) = Except.ok demoSetupOut.row.passed_median_read_length ∧
    (pathBasecall demoY ("Pass Reads".toList) ("qual_score_percentiles".toList)).bind
      (fun v => v.getIdx 50) = Except.ok demoSetupOut.row.passed_median_phred_score ∧
    pathBasecall demoY ("Pass Reads".toList) ("N50".toList) =
      Except.ok demoSetupOut.row.passed_n50 ∧
    pathRun demoY ("Pass Reads".toList) ("active_channels".toList) =
      Except.ok demoSetupOut.row.passed_channels ∧
    pathBasecall demoY ("Pass Reads".toList) ("reads_number".toList) =
      Except.ok demoSetupOut.row.passed_reads ∧
    pathBasecall demoY ("Pass Reads".toList) ("bases_number".toList) =
      Except.ok demoSetupOut.row.passed_bases :=
  C5_setup_projection demoY demoSetupOut rfl

/-- C9: for every pycoQC sample, the reads and bases bar-chart
decompositions satisfy `passed_reads + non_passed_reads = all reads_number`
and `passed_bases + non_passed_bases = all bases_number`, because the
non-passed quantities are the exact difference of the `All Reads` and
`Pass Reads` counts. -/
theorem C9_bar_chart_sums (y : Yaml) (o : SetupOut)
    (h : setupSample y = Except.ok o) :
    (pathBasecall y ("All Reads".toList) ("reads_number".toList)).bind Yaml.asNum =
      Except.ok (o.reads.passed + o.reads.non_passed) ∧
    (pathBasecall y ("All Reads".toList) ("bases_number".toList)).bind Yaml.asNum =
      Except.ok (o.bases.passed + o.bases.non_passed) ∧
    (pathBasecall y ("Pass Reads".toList) ("reads_number".toList)).bind Yaml.asNum =
      Except.ok o.reads.passed ∧
    (pathBasecall y ("Pass Reads".toList) ("bases_number".toList)).bind Yaml.asNum =
      Except.ok o.bases.passed := by
  obtain ⟨_, _, _, _, _, _, _, _, _, _, _, _, _, c14, c15, c16, c17⟩ :=
    setupSample_fields y o h
  exact ⟨c14, c15, c16, c17⟩

/-- C9 witness: the bar-chart sums evaluated on a concrete pycoQC
document. -/
theorem C9_witness :
    (pathBasecall demoY ("All Reads".toList) ("reads_number".toList)).bind Yaml.asNum =
      Except.ok (demoSetupOut.reads.passed + demoSetupOut.reads.non_passed) ∧
    (pathBasecall demoY ("All Reads".toList) ("bases_number".toList)).bind Yaml.asNum =
      Except.ok (demoSetupOut.bases.passed + demoSetupOut.bases.non_passed) ∧
    (pathBasecall demoY ("Pass Reads".toList) ("reads_number".toList)).bind Yaml.asNum =
      Except.ok demoSetupOut.reads.passed ∧
    (pathBasecall demoY ("Pass Reads".toList) ("bases_number".toList)).bind Yaml.asNum =
      Except.ok demoSetupOut.bases.passed :=
  C9_bar_chart_sums demoY demoSetupOut rfl

/-- C7 counterexample: parsing is not stateless between samples as claimed.
Presenting the same file (`demoDupB`, sample `S`) yields different
length-distribution records for `S` depending on whether another file with
the same sample name was processed before it: the module merges a repeated
sample's length rows into the existing inner dicts instead of replacing
them. -/
theorem C7_counterexample :
    dlookup (arStateAfter
        [(("S".toList), demoSingleLines), (("S".toList), demoDupB)]).lenDist
      ("S".toList) ≠
    dlookup (arStateAfter [(("S".toList), demoDupB)]).lenDist ("S".toList) := by
  decide

/-- C7 (amended): per-file parsing reads no module state, so as long as the
file's sample name has not appeared before, the per-sample records produced
(trim statistics and length-distribution entries) are a function of the
file's content and sample name alone, whatever state other samples built
up; only a repeated sample name breaks this, by merging length rows into
the earlier file's entry. -/
theorem C7_stateless_fresh_sample (st : ARState) (n : Line) (lines : List Line)
    (r : ResultData) (rows : List LenRow)
    (hp : parse_settings_file lines = POut.ok (r, rows))
    (habs : dlookup st.lenDist n = none) :
    stepAR st (n, lines) = POut.ok
      { data := dinsert st.data n r
        lenDist := if rows.isEmpty then st.lenDist
                   else dinsert st.lenDist n (applyRows emptyInner rows) } ∧
    dlookup (dinsert st.data n r) n = some r ∧
    dlookup (if rows.isEmpty then st.lenDist
             else dinsert st.lenDist n (applyRows emptyInner rows)) n =
      (if rows.isEmpty then none else some (applyRows emptyInner rows)) := by
  refine ⟨?_, dlookup_dinsert_self _ _ _, ?_⟩
  · simp only [stepAR]
    rw [hp]
    dsimp only
    rw [habs]
    rfl
  · cases hre : rows.isEmpty
    · simp only [hre, Bool.false_eq_true, if_false]
      exact dlookup_dinsert_self _ _ _
    · simp only [hre, if_true]
      exact habs

/-- C7 witness: a fresh sample name processed on top of a non-empty module
state yields exactly the records computed from its own file. -/
theorem C7_witness :
    stepAR (arStateAfter [(("T".toList), demoDupB)])
        (("S".toList), demoSingleLines) =
      POut.ok
        { data := dinsert (arStateAfter [(("T".toList), demoDupB)]).data
            ("S".toList) demoSingleR
          lenDist := if demoSingleRows.isEmpty then
              (arStateAfter [(("T".toList), demoDupB)]).lenDist
            else dinsert (arStateAfter [(("T".toList), demoDupB)]).lenDist
              ("S".toList) (applyRows emptyInner demoSingleRows) } ∧
    dlookup (dinsert (arStateAfter [(("T".toList), demoDupB)]).data
        ("S".toList) demoSingleR) ("S".toList) = some demoSingleR ∧
    dlookup (if demoSingleRows.isEmpty then
        (arStateAfter [(("T".toList), demoDupB)]).lenDist
      else dinsert (arStateAfter [(("T".toList), demoDupB)]).lenDist
        ("S".toList) (applyRows emptyInner demoSingleRows)) ("S".toList) =
      (if demoSingleRows.isEmpty then none
       else some (applyRows emptyInner demoSingleRows)) :=
  C7_stateless_fresh_sample (arStateAfter [(("T".toList), demoDupB)])
    ("S".toList) demoSingleLines demoSingleR demoSingleRows rfl rfl

end MultiQC
